import Mathlib

/-!
Shallow embedding of the mc2skos notation-decoding and URI-resolution core
(src/mc2skos/record.py and src/mc2skos/vocabularies.py), together with
theorems settling the frozen claims about it.

Python exceptions are modelled with `Except PyExc`; machine-level details
(logging, XML access) are dropped, but every control path of the embedded
functions mirrors the Python source line by line.
-/

namespace Mc2skos

/-- Python exception values that the embedded code can raise. -/
inductive PyExc where
  | typeError (msg : String)
  | keyError (key : String)
  | valueError (msg : String)
  | indexError
  | attributeError (msg : String)
  | invalidRecord (msg : String) (controlNumber : Option String)
  | unknownScheme (code : Option String)
deriving DecidableEq

/-- One MARC subfield: a one-character code and a text value; `sf.text()` can
return `None` in Python, hence the `Option`. -/
structure Subfield where
  code : String
  value : Option String
deriving DecidableEq

/-- The `TypeError` Python raises when `None` meets `+` on strings. -/
def noneConcatErr : PyExc := .typeError "unsupported operand type: NoneType and str"

/-- Python `'{0}'.format(x)` renders `None` as the string `None`. -/
def pyStrOf (v : Option String) : String :=
  match v with
  | none => "None"
  | some s => s

/-! ## Constants (src/mc2skos/constants.py) -/

namespace Constants

def SCHEDULE_RECORD : String := "schedule_record"
def TABLE_RECORD : String := "table_record"
def INTERNAL_SUMMARY_OF_SCHEDULE_NUMBER : String := "internal_summary_of_schedule_number"
def EXTERNAL_SUMMARY : String := "external_summary"
def INTERNAL_SUMMARY_OF_TABLE_NUMBER : String := "internal_summary_of_table_number"
def MANUAL_NOTE_RECORD : String := "manual_note_record"
def UNKNOWN : String := "unknown"
def SINGLE_NUMBER : String := "single_number"
def NUMBER_SPAN : String := "number_span"
def SUMMARY_NUMBER_SPAN : String := "summary_number_span"

end Constants

/-! ## ClassificationRecord.parse_153 (record.py lines 522-591) -/

/-- The `mode` variable of the 153 scan: `'notation'`, `'parent'` or `'other'`. -/
inductive Mode where
  | nota
  | par
  | other
deriving DecidableEq

/-- The mutable locals of `parse_153`'s scan loop. -/
structure State153 where
  table : Option String
  addTable : Option String
  notat : Option String
  parent : Option String
  caption : Option String
  isTop : Bool
  mode : Mode
deriving DecidableEq

/-- Initial state of the 153 scan (`table = add_table = notation =
parent_notation = caption = None`, `is_top_concept = True`, `mode = 'notation'`). -/
def init153 : State153 :=
  { table := none, addTable := none, notat := none, parent := none,
    caption := none, isTop := true, mode := .nota }

/-- One iteration of the `for idx, subfield in enumerate(buf)` loop of
`parse_153`, mirroring the if/elif chain branch for branch. -/
def step153 (st : State153) (sf : Subfield) : Except PyExc State153 :=
  if sf.code = "z" then
    .ok { st with table := sf.value }
  else if sf.code = "y" then
    .ok { st with addTable := sf.value }
  else if sf.code = "a" ∧ st.mode = .nota then
    match st.addTable with
    | some m =>
        -- `notation += ':'` / `notation += ':%s;' % add_table`:
        -- raises TypeError when notation is still None
        match st.notat with
        | none => .error noneConcatErr
        | some n =>
          let base := if m = "1" then n ++ ":" else n ++ ":" ++ m ++ ";"
          match sf.value with
          | none => .error noneConcatErr
          | some v => .ok { st with notat := some (base ++ v), addTable := none }
    | none =>
        -- `notation = '%s--' % table` discards any earlier notation value
        let base := match st.table with
          | some t => t ++ "--"
          | none => ""
        match sf.value with
        | none => .error noneConcatErr
        | some v => .ok { st with notat := some (base ++ v), addTable := none }
  else if sf.code = "c" ∧ st.mode = .nota then
    match sf.value with
    | none => .error noneConcatErr
    | some v =>
      match st.notat with
      | none => .error noneConcatErr
      | some n => .ok { st with notat := some (n ++ "-" ++ v) }
  else if sf.code = "e" ∧ (st.mode = .nota ∨ st.mode = .par) then
    let base := match st.addTable with
      | some m => if m = "1" then ":" else ";" ++ m ++ ":"
      | none => match st.table with
        | some t => t ++ "--"
        | none => ""
    match sf.value with
    | none => .error noneConcatErr
    | some v => .ok { st with parent := some (base ++ v), addTable := none, mode := .par }
  else if sf.code = "f" ∧ st.mode = .par then
    match sf.value with
    | none => .error noneConcatErr
    | some v =>
      match st.parent with
      | none => .error noneConcatErr
      | some p => .ok { st with parent := some (p ++ "-" ++ v) }
  else if sf.code = "j" then
    .ok { st with caption := sf.value }
  else if sf.code = "h" then
    .ok { st with isTop := false }
  else
    .ok { st with mode := .other }

/-- The scan loop of `parse_153`: left-to-right over the subfield list,
propagating the first raised exception. -/
def run153 (st : State153) : List Subfield → Except PyExc State153
  | [] => .ok st
  | sf :: rest =>
    match step153 st sf with
    | .ok st' => run153 st' rest
    | .error e => .error e

/-- The tuple `(table, notation, is_top_concept, parent_notation, caption)`
returned by `parse_153`, as a named structure. -/
structure Result153 where
  table : Option String
  notat : Option String
  isTop : Bool
  parent : Option String
  caption : Option String
deriving DecidableEq

/-- Embedding of `ClassificationRecord.parse_153`: scan the subfields, then
apply the final `if parent_notation is not None: is_top_concept = False`. -/
def parse153 (sfs : List Subfield) : Except PyExc Result153 :=
  match run153 init153 sfs with
  | .error e => .error e
  | .ok st =>
    let isTop := if st.parent ≠ none then false else st.isTop
    .ok { table := st.table, notat := st.notat, isTop := isTop,
          parent := st.parent, caption := st.caption }

/-! ## The 765 loop of ClassificationRecord.parse (record.py lines 425-452) -/

/-- The locals of the 765 loop: the accumulated `self.components` plus the
per-field `table` and `rootno` buffers (`rootno` can become `None` when a
`$r` subfield is empty, hence the `Option`). -/
structure State765 where
  components : List String
  table : String
  rootno : Option String
deriving DecidableEq

/-- One iteration of the inner `for sf in entry.all('mx:subfield')` loop. -/
def step765 (st : State765) (sf : Subfield) : Except PyExc State765 :=
  if sf.code = "b" then
    if st.components = [] then
      match sf.value with
      | none => .error noneConcatErr
      | some v => .ok { st with components := st.components ++ [st.table ++ v], table := "" }
    else
      .ok st
  else if sf.code = "r" then
    .ok { st with rootno := sf.value }
  else if sf.code = "z" then
    .ok { st with table := pyStrOf sf.value ++ "--" }
  else if sf.code = "s" then
    match sf.value with
    | none => .ok st  -- logged as a warning, then skipped
    | some v =>
      match st.rootno with
      | none => .error noneConcatErr
      | some r =>
        let tmp := r ++ v
        let tmp := if tmp.length > 3 then tmp.take 3 ++ "." ++ tmp.drop 3 else tmp
        .ok { st with components := st.components ++ [st.table ++ tmp], table := "" }
  else
    .ok st  -- codes such as u, w, 9 are ignored by the loop

/-- The inner `for sf in entry.all('mx:subfield')` loop over one 765 field,
left to right, propagating the first raised exception. -/
def go765 (st : State765) : List Subfield → Except PyExc State765
  | [] => .ok st
  | sf :: rest =>
    match step765 st sf with
    | .ok st' => go765 st' rest
    | .error e => .error e

/-- Process one 765 field: reset the per-field `table`/`rootno` buffers, then
scan its subfields. -/
def run765Field (components : List String) (sfs : List Subfield) :
    Except PyExc (List String) :=
  match go765 { components := components, table := "", rootno := some "" } sfs with
  | .error e => .error e
  | .ok st => .ok st.components

/-- Process a list of 765 fields in the order given, threading `components`. -/
def run765 (components : List String) : List (List Subfield) → Except PyExc (List String)
  | [] => .ok components
  | f :: rest =>
    match run765Field components f with
    | .ok comps' => run765 comps' rest
    | .error e => .error e

/-- Embedding of the 765 section of `ClassificationRecord.parse`:
`for entry in reversed(list(record.all(...)))` with `self.components = []`. -/
def parse765 (fields : List (List Subfield)) : Except PyExc (List String) :=
  run765 [] fields.reverse

/-! ## ClassificationRecord.parse_008 (record.py lines 456-520) -/

/-- A parsed `datetime` date (only the date part matters here). -/
structure PyDate where
  year : Nat
  month : Nat
  day : Nat
deriving DecidableEq

def isLeapYear (y : Nat) : Bool :=
  (y % 4 = 0 ∧ y % 100 ≠ 0) ∨ y % 400 = 0

def daysInMonth (y m : Nat) : Nat :=
  if m = 1 then 31
  else if m = 2 then (if isLeapYear y then 29 else 28)
  else if m = 3 then 31
  else if m = 4 then 30
  else if m = 5 then 31
  else if m = 6 then 30
  else if m = 7 then 31
  else if m = 8 then 31
  else if m = 9 then 30
  else if m = 10 then 31
  else if m = 11 then 30
  else 31

def digitVal (c : Char) : Nat := c.toNat - '0'.toNat

/-- Embedding of `datetime.strptime(s, '%y%m%d')` for the six-character
slices the callers produce. A two-digit year 00-68 maps to 20xx and 69-99
to 19xx, and the day must exist in the month. (Python's lax one-digit field
matching on shorter digit strings is not reproduced: every caller that could
pass such a string fails with an exception either way.) -/
def strptimeYYMMDD (s : String) : Except PyExc PyDate :=
  match s.data with
  | [y1, y2, m1, m2, d1, d2] =>
    if (y1.isDigit ∧ y2.isDigit ∧ m1.isDigit ∧ m2.isDigit ∧ d1.isDigit ∧ d2.isDigit) then
      let yy := 10 * digitVal y1 + digitVal y2
      let mm := 10 * digitVal m1 + digitVal m2
      let dd := 10 * digitVal d1 + digitVal d2
      let year := if yy ≤ 68 then 2000 + yy else 1900 + yy
      if (1 ≤ mm ∧ mm ≤ 12) then
        if (1 ≤ dd ∧ dd ≤ daysInMonth year mm) then
          .ok { year := year, month := mm, day := dd }
        else .error (.valueError "day is out of range for month")
      else .error (.valueError "time data does not match format")
    else .error (.valueError "time data does not match format")
  | _ => .error (.valueError "time data does not match format")

/-- Python `value[i]` on a string: `IndexError` when out of range. -/
def pyIndex (s : String) (i : Nat) : Except PyExc Char :=
  match s.data.get? i with
  | some c => .ok c
  | none => .error .indexError

/-- The tuple returned by `parse_008`:
`(created, record_type, number_type, display, synthesized, deprecated)`. -/
structure Result008 where
  created : Option PyDate
  recordType : Option String
  numberType : Option String
  display : Bool
  synthesized : Bool
  deprecated : Bool
deriving DecidableEq

/-- The non-absent branch of `ClassificationRecord.parse_008`: the creation
date is parsed from the first six characters, then the flag characters are
read positionally, branch for branch as in the source. -/
def parse008Str (v : String) : Except PyExc Result008 :=
  match strptimeYYMMDD (v.take 6) with
    | .error e => .error e
    | .ok created =>
    match pyIndex v 6 with
    | .error e => .error e
    | .ok c6 =>
    let recordType :=
      if c6 = 'a' then Constants.SCHEDULE_RECORD
      else if c6 = 'b' then Constants.TABLE_RECORD
      else if c6 = 'e' then Constants.EXTERNAL_SUMMARY
      else if c6 = 'i' then Constants.INTERNAL_SUMMARY_OF_SCHEDULE_NUMBER
      else if c6 = 'j' then Constants.INTERNAL_SUMMARY_OF_TABLE_NUMBER
      else if c6 = 'm' then Constants.MANUAL_NOTE_RECORD
      else if c6 = '1' then Constants.SCHEDULE_RECORD
      else Constants.UNKNOWN  -- logged as a warning
    match pyIndex v 7 with
    | .error e => .error e
    | .ok c7 =>
    let numberType :=
      if c7 = 'a' then Constants.SINGLE_NUMBER
      else if c7 = 'b' then Constants.NUMBER_SPAN
      else if c7 = 'c' then Constants.SUMMARY_NUMBER_SPAN
      else Constants.UNKNOWN
    match pyIndex v 8 with
    | .error e => .error e
    | .ok c8 =>
    let deprecated := c8 = 'd' ∨ c8 = 'e'
    match pyIndex v 12 with
    | .error e => .error e
    | .ok c12 =>
    let synthesized := c12 = 'b'
    match pyIndex v 13 with
    | .error e => .error e
    | .ok c13 =>
    let display :=
      if c13 = 'a' then true
      else if c13 = 'b' then true
      else if c13 = 'h' then false
      else if c7 = 'n' then false
      else false  -- logged as a warning
    .ok { created := some created, recordType := some recordType,
          numberType := some numberType, display := display,
          synthesized := synthesized, deprecated := deprecated }

/-- Embedding of `ClassificationRecord.parse_008`: an absent field returns
the all-`None` defaults with `display=True`, otherwise the positional
decode runs. -/
def parse008 (value : Option String) : Except PyExc Result008 :=
  match value with
  | none => .ok { created := none, recordType := none, numberType := none,
                  display := true, synthesized := false, deprecated := false }
  | some v => parse008Str v

/-! ## URI template engine (vocabularies.py ConceptScheme, record.py ConceptScheme) -/

/-- Keyword arguments passed to the URI resolvers; a value can be Python
`None`, hence the inner `Option`. -/
abbrev Kwargs := List (String × Option String)

/-- Python `kwargs.get(k)` distinguishing "absent" from "present with None". -/
def getKw (ks : Kwargs) (k : String) : Option (Option String) :=
  List.lookup k ks

/-- Python `kwargs[k] = v`: replace the first binding or append a new one. -/
def setKw : Kwargs → String → Option String → Kwargs
  | [], k, v => [(k, v)]
  | (k', v') :: rest, k, v =>
    if k' = k then (k, v) :: rest else (k', v') :: setKw rest k v

/-- Embedding of `re.sub('[^0-9]', '', s)`: keep only the digits 0-9. -/
def digitsOnly (s : String) : String :=
  ⟨s.data.filter Char.isDigit⟩

/-- Python `a or b` for two optional strings: `None` and `''` are falsy. -/
def pyOrOpt (a b : Option String) : Option String :=
  match a with
  | some s => if s = "" then b else some s
  | none => b

/-- Python `a or d` where `d` is a plain string default. -/
def pyOrDefault (a : Option String) (d : String) : String :=
  match a with
  | some s => if s = "" then d else s
  | none => d

/-- Python `s.replace(a, b)` for single characters `a`, `b`. -/
def pyReplaceCharChar (s : String) (a b : Char) : String :=
  ⟨s.data.map (fun c => if c = a then b else c)⟩

/-- Python `s.replace(' ', sub)` for an arbitrary replacement string `sub`,
working on the character list. -/
def replaceSpaceAux (sub : List Char) : List Char → List Char
  | [] => []
  | c :: rest => (if c = ' ' then sub else [c]) ++ replaceSpaceAux sub rest

/-- Embedding of `uri.replace(' ', self.whitespace)`. -/
def pyReplaceSpace (s sub : String) : String :=
  ⟨replaceSpaceAux sub.data s.data⟩

/-- Embedding of `re.sub(r'^\(.+\)(.+)$', '\\1', cn)`: strip a leading
parenthesized organization prefix. The first `.+` is greedy, so the match
splits at the last `)` that leaves at least one character on each side;
`.` does not match a newline, so a string containing one never matches. -/
def stripOrgPfx (s : String) : String :=
  let cs := s.data
  if cs.head? = some '(' ∧ ¬ cs.contains '\n' then
    match ((List.range cs.length).filter
        (fun j => cs.get? j = some ')' ∧ 2 ≤ j ∧ j + 1 < cs.length)).getLast? with
    | some j => ⟨cs.drop (j + 1)⟩
    | none => s
  else s

/-- Python string slicing `v[start:end]` for the nonnegative bounds the
placeholder regex can produce (absent bounds default to the ends). -/
def pySliceStr (v : String) (start? stop? : Option Nat) : String :=
  let st := start?.getD 0
  let en := stop?.getD v.data.length
  ⟨(v.data.drop st).take (en - st)⟩

def natOfDigits (ds : List Char) : Nat :=
  ds.foldl (fun n c => 10 * n + digitVal c) 0

/-- Embedding of Python `int(s)` for the decimal strings the template engine
feeds it: optional surrounding whitespace and sign, then at least one digit
(`_` digit grouping is not reproduced: the repository's templates never
produce it). Anything else raises `ValueError`. -/
def pyInt (s : String) : Except PyExc Int :=
  let cs := (s.data.dropWhile Char.isWhitespace).reverse.dropWhile Char.isWhitespace |>.reverse
  let (sign, digits) : Int × List Char :=
    match cs with
    | '-' :: rest => (-1, rest)
    | '+' :: rest => (1, rest)
    | _ => (1, cs)
  if digits ≠ [] ∧ digits.all Char.isDigit then
    .ok (sign * (natOfDigits digits : Int))
  else
    .error (.valueError "invalid literal for int")

def isParamChar (c : Char) : Bool := ('a' ≤ c ∧ c ≤ 'z') ∨ c = '_'

/-- Attempt to match the placeholder pattern
`\{(?P<param>[a-z_]+)(?:\[(?P<start>\d+)?:(?P<end>\d+)?\])?(?P<formatter>[:!][^\}]+)?\}`
at a position just after a `{`. Returns the captured groups and the
remaining characters, or `none` when the pattern does not match here (the
regex engine then leaves the `{` in place). -/
def matchPlaceholder (cs : List Char) :
    Option (String × Option (Option Nat × Option Nat) × Option String × List Char) := do
  let param := cs.takeWhile isParamChar
  if param = [] then none else
  let rest0 := cs.dropWhile isParamChar
  -- optional [start:end] slice group
  let (slice?, rest1) : Option (Option Nat × Option Nat) × List Char :=
    match rest0 with
    | '[' :: r =>
      let ds1 := r.takeWhile Char.isDigit
      let r1 := r.dropWhile Char.isDigit
      match r1 with
      | ':' :: r2 =>
        let ds2 := r2.takeWhile Char.isDigit
        let r3 := r2.dropWhile Char.isDigit
        match r3 with
        | ']' :: r4 =>
          ((some (if ds1 = [] then none else some (natOfDigits ds1),
                  if ds2 = [] then none else some (natOfDigits ds2)), r4))
        | _ => (none, rest0)
      | _ => (none, rest0)
    | _ => (none, rest0)
  -- optional trailing formatter [:!][^}]+
  let (fmt?, rest2) : Option String × List Char :=
    match rest1 with
    | c :: r =>
      if c = ':' ∨ c = '!' then
        let body := r.takeWhile (fun x => x ≠ '}')
        if body = [] then (none, rest1)
        else (some ⟨c :: body⟩, r.dropWhile (fun x => x ≠ '}'))
      else (none, rest1)
    | [] => (none, rest1)
  match rest2 with
  | '}' :: remainder => some (⟨param⟩, slice?, fmt?, remainder)
  | _ => none

/-- Embedding of the `process_formatter` replacement callback: slice the
keyword value, then apply the optional formatter (`'d' in formatter_str`
converts via `int`, `'f'` via `float`). Only the format specs exercised by
the repository's vocabulary table (`:d` or none) are reproduced; the float
and exotic specs are mapped to an explicit error value. -/
def processFormatterSub (kwargs : Kwargs) (param : String)
    (slice? : Option (Option Nat × Option Nat)) (fmt? : Option String) :
    Except PyExc String :=
  match getKw kwargs param with
  | none => .error (.keyError param)
  | some none => .error (.typeError "NoneType is not subscriptable")
  | some (some v) =>
    let start? := match slice? with | some p => p.1 | none => none
    let stop? := match slice? with | some p => p.2 | none => none
    let sliced := pySliceStr v start? stop?
    if sliced = "" then .ok sliced
    else
      match fmt? with
      | none => .ok sliced
      | some f =>
        if f.contains 'd' then do
          let n ← pyInt sliced
          if f = ":d" then .ok (toString n)
          else .error (.valueError "format spec not modelled")
        else if f.contains 'f' then
          .error (.valueError "float format spec not modelled")
        else
          .error (.valueError "format spec not modelled")

/-- The scan of `re.sub(placeholder_regex, process_formatter, template)`:
left to right, non-overlapping; a `{` where the pattern fails stays literal.
The fuel argument is always at least the input length plus one, and each
step consumes at least one character. -/
def reSubAux (kwargs : Kwargs) : Nat → List Char → Except PyExc (List Char)
  | 0, cs => .ok cs
  | _ + 1, [] => .ok []
  | fuel + 1, '{' :: rest =>
    (match matchPlaceholder rest with
     | some (param, slice?, fmt?, remainder) => do
        let rep ← processFormatterSub kwargs param slice? fmt?
        let tail ← reSubAux kwargs fuel remainder
        .ok (rep.data ++ tail)
     | none => do
        let tail ← reSubAux kwargs fuel rest
        .ok ('{' :: tail))
  | fuel + 1, c :: rest => do
    let tail ← reSubAux kwargs fuel rest
    .ok (c :: tail)

def reSubTemplate (kwargs : Kwargs) (tpl : String) : Except PyExc String := do
  let cs ← reSubAux kwargs (tpl.data.length + 1) tpl.data
  .ok ⟨cs⟩

/-- Embedding of the final `uri_template.format(**kwargs)` call. After the
regex pass all `{param}` placeholders are gone in every configured template,
so this normally copies its input; for completeness `{{`/`}}` escapes and
plain `{name}` fields (a `None` value prints as `None`) are reproduced and
the remaining corners of the format mini-language are explicit errors. -/
def pyFormatAux (kwargs : Kwargs) : Nat → List Char → Except PyExc (List Char)
  | 0, cs => .ok cs
  | _ + 1, [] => .ok []
  | fuel + 1, '{' :: '{' :: rest => do
    let tail ← pyFormatAux kwargs fuel rest
    .ok ('{' :: tail)
  | fuel + 1, '}' :: '}' :: rest => do
    let tail ← pyFormatAux kwargs fuel rest
    .ok ('}' :: tail)
  | _ + 1, '}' :: _ => .error (.valueError "Single brace encountered in format string")
  | fuel + 1, '{' :: rest =>
    let name := rest.takeWhile (fun c => c ≠ '}' ∧ c ≠ ':' ∧ c ≠ '!')
    (match rest.dropWhile (fun c => c ≠ '}' ∧ c ≠ ':' ∧ c ≠ '!') with
     | '}' :: rest2 =>
       if name = [] then .error .indexError
       else
         match getKw kwargs ⟨name⟩ with
         | none => .error (.keyError ⟨name⟩)
         | some v => do
           let tail ← pyFormatAux kwargs fuel rest2
           .ok ((pyStrOf v).data ++ tail)
     | _ => .error (.valueError "format field not modelled"))
  | fuel + 1, c :: rest => do
    let tail ← pyFormatAux kwargs fuel rest
    .ok (c :: tail)

def pyFormat (kwargs : Kwargs) (s : String) : Except PyExc String := do
  let cs ← pyFormatAux kwargs (s.data.length + 1) s.data
  .ok ⟨cs⟩

/-! ### vocabularies.py ConceptScheme -/

/-- The `options` dict a vocabulary entry can carry. -/
structure SchemeOptions where
  base_uri : Option String
  concept : Option String
  scheme : Option String
  whitespace : Option String
deriving DecidableEq

/-- Embedding of `vocabularies.ConceptScheme` after `__init__`: the two URI
templates, the whitespace substitute and the numeric edition. -/
structure ConceptScheme where
  code : Option String
  edition : Option String
  editionNumeric : String
  conceptTemplate : Option String
  schemeTemplate : Option String
  whitespace : String
deriving DecidableEq

/-- Embedding of `ConceptScheme.__init__(concept_type, code, edition, options)`:
`edition_numeric = re.sub('[^0-9]', '', edition or '')`, the templates fall
back from role-specific to `base_uri`, and
`self.whitespace = options.get('whitespace') or '-'`. -/
def mkConceptScheme (code : Option String) (edition : Option String)
    (options : SchemeOptions) : ConceptScheme :=
  { code := code
    edition := edition
    editionNumeric := digitsOnly (edition.getD "")
    conceptTemplate := pyOrOpt options.concept options.base_uri
    schemeTemplate := pyOrOpt options.scheme options.base_uri
    whitespace := pyOrDefault options.whitespace "-" }

/-- Embedding of `vocabularies.ConceptScheme.uri(uri_type, **kwargs)`. -/
def ConceptScheme.uri (cs : ConceptScheme) (uriType : String) (kwargs : Kwargs) :
    Except PyExc String :=
  if uriType ≠ "concept" ∧ uriType ≠ "scheme" then
    .error (.valueError "Unknown URI type")
  else
    match (if uriType = "concept" then cs.conceptTemplate else cs.schemeTemplate) with
    | none => .error (.unknownScheme cs.code)
    | some tpl =>
      let kwargs := setKw kwargs "edition" (some cs.editionNumeric)
      let kwargs := if uriType = "scheme" then setKw kwargs "control_number" (some "") else kwargs
      let kwargs := match getKw kwargs "control_number" with
        | some (some cn) => setKw kwargs "control_number" (some (stripOrgPfx cn))
        | _ => kwargs
      match reSubTemplate kwargs tpl with
      | .error e => .error e
      | .ok t1 =>
        match pyFormat kwargs t1 with
        | .error e => .error e
        | .ok t2 => .ok (pyReplaceSpace t2 cs.whitespace)

/-! ### record.py ConceptScheme.get_uri -/

/-- Embedding of the `record.py` flavour of `ConceptScheme`: a config dict
mapping URI roles to templates plus the numeric edition. -/
structure RecordScheme where
  code : Option String
  editionNumeric : String
  config : List (String × String)
deriving DecidableEq

/-- Builder mirroring `record.ConceptScheme.__init__`'s
`edition_numeric = re.sub('[^0-9]', '', edition or '')`. -/
def mkRecordScheme (code : Option String) (edition : Option String)
    (config : List (String × String)) : RecordScheme :=
  { code := code, editionNumeric := digitsOnly (edition.getD ""), config := config }

/-- Embedding of `record.ConceptScheme.get_uri(uri_type, **kwargs)`. Unlike
the `vocabularies.py` version it hyphenates spaces inside the `object`
keyword and performs no final whitespace substitution. -/
def RecordScheme.getUri (rs : RecordScheme) (uriType : String) (kwargs : Kwargs) :
    Except PyExc String :=
  let kwargs := setKw kwargs "edition" (some rs.editionNumeric)
  let kwargs := if uriType = "scheme" then setKw kwargs "control_number" (some "") else kwargs
  let kwargs := match getKw kwargs "control_number" with
    | some (some cn) => setKw kwargs "control_number" (some (stripOrgPfx cn))
    | _ => kwargs
  match getKw kwargs "object" with
  | some none => .error (.attributeError "NoneType object has no attribute replace")
  | objLookup =>
    let kwargs := match objLookup with
      | some (some ov) => setKw kwargs "object" (some (pyReplaceCharChar ov ' ' '-'))
      | _ => kwargs
    match List.lookup uriType rs.config with
    | none => .error (.unknownScheme rs.code)
    | some tpl =>
      match reSubTemplate kwargs tpl with
      | .error e => .error e
      | .ok t1 => pyFormat kwargs t1

/-! ## ClassificationRecord.parse orchestration (record.py lines 234-307)

Only the path that decides the missing-153 claim is embedded: the control
number precedence of `Record.parse` (001, overridden by 010 `$a`, overridden
by 016 `$a`), the 008 decoding, the mandatory 153 check and the 153/765
decodes. The 005 timestamp (whose parse errors are caught and logged), the
040 language lookup and the concept-scheme resolution are external-library
collaborators outside this embedding. -/

/-- The record fields consulted by the embedded slice of
`ClassificationRecord.parse`. -/
structure MarcClassRecord where
  f001 : Option String
  f010a : Option String
  f016a : Option String
  f008 : Option String
  f153 : Option (List Subfield)
  f765 : List (List Subfield)
deriving DecidableEq

/-- Control number resolution of `Record.parse`: the 001 value, overridden
by 010 `$a` when present, overridden by 016 `$a` when present. -/
def controlNumberOf (r : MarcClassRecord) : Option String :=
  let cn := r.f001
  let cn := match r.f010a with | some v => some v | none => cn
  match r.f016a with | some v => some v | none => cn

/-- Embedding of the claim-relevant spine of `ClassificationRecord.parse`:
decode 008, then raise `InvalidRecordError('153 field is missing',
control_number=...)` when no 153 field exists, otherwise decode 153 and the
765 components. -/
def classificationParse (r : MarcClassRecord) :
    Except PyExc (Option String × Result008 × Result153 × List String) :=
  let cn := controlNumberOf r
  match parse008 r.f008 with
  | .error e => .error e
  | .ok r008 =>
    match r.f153 with
    | none => .error (.invalidRecord "153 field is missing" cn)
    | some sfs =>
      match parse153 sfs with
      | .error e => .error e
      | .ok r153 =>
        match parse765 r.f765 with
        | .error e => .error e
        | .ok comps => .ok (cn, r008, r153, comps)

/-- Truth value of "this call returned normally" for an embedded Python call. -/
def pyOk {α : Type} (x : Except PyExc α) : Bool :=
  match x with
  | .ok _ => true
  | .error _ => false

end Mc2skos

namespace Mc2skos

/-! ## Helper lemmas about the 153 scan -/

theorem run153_append (st : State153) (l1 l2 : List Subfield) :
    run153 st (l1 ++ l2) = match run153 st l1 with
      | .ok s1 => run153 s1 l2
      | .error e => .error e := by
  induction l1 generalizing st with
  | nil => simp [run153]
  | cons sf rest ih =>
    simp only [List.cons_append, run153]
    cases h : step153 st sf with
    | ok st' => simpa using ih st'
    | error e => rfl

theorem step153_parent_pres (st st' : State153) (sf : Subfield)
    (h : step153 st sf = .ok st') (hne : sf.code ≠ "e") :
    (st'.parent = none ↔ st.parent = none) := by
  unfold step153 at h
  repeat' split at h
  any_goals (injection h with h)
  any_goals subst h
  all_goals simp_all

theorem step153_isTop_eq (st st' : State153) (sf : Subfield)
    (h : step153 st sf = .ok st') (hne : sf.code ≠ "h") :
    st'.isTop = st.isTop := by
  unfold step153 at h
  repeat' split at h
  any_goals (injection h with h)
  any_goals subst h
  all_goals simp_all

theorem step153_h_isTop (st st' : State153) (sf : Subfield)
    (h : step153 st sf = .ok st') (hcode : sf.code = "h") :
    st'.isTop = false := by
  unfold step153 at h
  repeat' split at h
  any_goals (injection h with h)
  any_goals subst h
  all_goals simp_all

theorem step153_isTop_false (st st' : State153) (sf : Subfield)
    (h : step153 st sf = .ok st') (hf : st.isTop = false) :
    st'.isTop = false := by
  by_cases hc : sf.code = "h"
  · exact step153_h_isTop st st' sf h hc
  · rw [step153_isTop_eq st st' sf h hc]; exact hf

theorem run153_parent_none (sfs : List Subfield) (st st' : State153)
    (hnoe : ∀ sf ∈ sfs, sf.code ≠ "e") (hp : st.parent = none)
    (h : run153 st sfs = .ok st') : st'.parent = none := by
  induction sfs generalizing st with
  | nil =>
    unfold run153 at h
    injection h with h
    subst h
    exact hp
  | cons sf rest ih =>
    unfold run153 at h
    cases hstep : step153 st sf with
    | ok st1 =>
      rw [hstep] at h
      refine ih st1 (fun x hx => hnoe x (List.mem_cons_of_mem sf hx)) ?_ h
      exact (step153_parent_pres st st1 sf hstep (hnoe sf (List.mem_cons_self sf rest))).mpr hp
    | error e => rw [hstep] at h; cases h

theorem run153_isTop_eq (sfs : List Subfield) (st st' : State153)
    (hnoh : ∀ sf ∈ sfs, sf.code ≠ "h")
    (h : run153 st sfs = .ok st') : st'.isTop = st.isTop := by
  induction sfs generalizing st with
  | nil =>
    unfold run153 at h
    injection h with h
    subst h
    rfl
  | cons sf rest ih =>
    unfold run153 at h
    cases hstep : step153 st sf with
    | ok st1 =>
      rw [hstep] at h
      rw [ih st1 (fun x hx => hnoh x (List.mem_cons_of_mem sf hx)) h]
      exact step153_isTop_eq st st1 sf hstep (hnoh sf (List.mem_cons_self sf rest))
    | error e => rw [hstep] at h; cases h

theorem run153_isTop_false (sfs : List Subfield) (st st' : State153)
    (hf : st.isTop = false)
    (h : run153 st sfs = .ok st') : st'.isTop = false := by
  induction sfs generalizing st with
  | nil =>
    unfold run153 at h
    injection h with h
    subst h
    exact hf
  | cons sf rest ih =>
    unfold run153 at h
    cases hstep : step153 st sf with
    | ok st1 =>
      rw [hstep] at h
      exact ih st1 (step153_isTop_false st st1 sf hstep hf) h
    | error e => rw [hstep] at h; cases h

/-! ## Helper lemmas about the 765 loop -/

theorem step765_components_extend (st st' : State765) (sf : Subfield)
    (h : step765 st sf = .ok st') :
    ∃ app, st'.components = st.components ++ app := by
  unfold step765 at h
  repeat' split at h
  all_goals try exact Except.noConfusion h
  any_goals (injection h with h)
  any_goals subst h
  all_goals first
    | exact ⟨_, rfl⟩
    | exact ⟨[], by simp⟩

theorem step765_b_noop (st : State765) (v : Option String)
    (h : st.components ≠ []) :
    step765 st ⟨"b", v⟩ = .ok st := by
  unfold step765
  simp [h]

theorem go765_components_extend (sfs : List Subfield) (st st' : State765)
    (h : go765 st sfs = .ok st') :
    ∃ app, st'.components = st.components ++ app := by
  induction sfs generalizing st with
  | nil =>
    unfold go765 at h
    injection h with h
    subst h
    exact ⟨[], by simp⟩
  | cons sf rest ih =>
    unfold go765 at h
    cases hstep : step765 st sf with
    | ok st1 =>
      rw [hstep] at h
      obtain ⟨app1, h1⟩ := step765_components_extend st st1 sf hstep
      obtain ⟨app2, h2⟩ := ih st1 h
      exact ⟨app1 ++ app2, by rw [h2, h1, List.append_assoc]⟩
    | error e => rw [hstep] at h; cases h

theorem run765Field_extend (comps : List String) (sfs : List Subfield)
    (cs : List String) (h : run765Field comps sfs = .ok cs) :
    ∃ app, cs = comps ++ app := by
  unfold run765Field at h
  cases hgo : go765 { components := comps, table := "", rootno := some "" } sfs with
  | ok stF =>
    rw [hgo] at h
    injection h with h
    subst h
    exact go765_components_extend sfs _ stF hgo
  | error e => rw [hgo] at h; cases h

theorem run765_extend (fields : List (List Subfield)) (comps cs : List String)
    (h : run765 comps fields = .ok cs) :
    ∃ app, cs = comps ++ app := by
  induction fields generalizing comps with
  | nil =>
    unfold run765 at h
    injection h with h
    subst h
    exact ⟨[], by simp⟩
  | cons f rest ih =>
    unfold run765 at h
    cases hF : run765Field comps f with
    | ok c1 =>
      rw [hF] at h
      obtain ⟨app1, h1⟩ := run765Field_extend comps f c1 hF
      obtain ⟨app2, h2⟩ := ih c1 h
      exact ⟨app1 ++ app2, by rw [h2, h1, List.append_assoc]⟩
    | error e => rw [hF] at h; cases h

/-! ## Claim C1 -/

/-- Claim C1 as frozen is false: in the `$a` branch of `parse_153` the
pending add-table marker is tested before the pending table prefix, so with
both pending (`a=81, z=3B, y=2, a=05`) the notation becomes `81:2;05` and
the table prefix `3B--` is never prepended. -/
theorem c1_counterexample :
    parse153 [⟨"a", some "81"⟩, ⟨"z", some "3B"⟩, ⟨"y", some "2"⟩, ⟨"a", some "05"⟩] =
      .ok ⟨some "3B", some "81:2;05", true, none, none⟩ ∧
    ("3B--".data.isPrefixOf "81:2;05".data) = false :=
  ⟨rfl, by decide⟩

/-- Claim C1 amended: when a `$a` subfield is processed in `notation` mode
with both a table prefix and an add-table marker pending, the add-table
marker wins: the notation is extended with `:` (marker value `1`) or
`:marker;`, the marker is cleared, and the table prefix is not consumed. -/
theorem c1_add_table_wins (st : State153) (m n v : String)
    (hmode : st.mode = .nota) (hat : st.addTable = some m) (hn : st.notat = some n) :
    step153 st ⟨"a", some v⟩ =
      .ok { st with
            notat := some ((if m = "1" then n ++ ":" else n ++ ":" ++ m ++ ";") ++ v),
            addTable := none } := by
  unfold step153
  simp [hmode, hat, hn]

/-- Witness for C1's amended theorem at a concrete pending state. -/
theorem c1_witness :
    step153 ⟨some "3B", some "2", some "81", none, none, true, .nota⟩ ⟨"a", some "05"⟩ =
      .ok ⟨some "3B", none,
           some ((if ("2" : String) = "1" then "81" ++ ":" else "81" ++ ":" ++ "2" ++ ";") ++ "05"),
           none, none, true, .nota⟩ :=
  c1_add_table_wins ⟨some "3B", some "2", some "81", none, none, true, .nota⟩
    "2" "81" "05" rfl rfl rfl

/-! ## Claim C2 -/

/-- Claim C2 as frozen is false: the decimal point depends on
`len(rootno + value) > 3`, not on the root number being exactly 3 digits.
With no root number at all, `$s = 2804` still gets a point (`280.4`); with
the 3-digit root `280` and an empty `$s` value no point is inserted. -/
theorem c2_counterexample :
    parse765 [[⟨"s", some "2804"⟩]] = .ok ["280.4"] ∧
    parse765 [[⟨"r", some "280"⟩, ⟨"s", some ""⟩]] = .ok ["280"] :=
  ⟨rfl, rfl⟩

/-- Claim C2 amended: a `$s` subfield with a non-missing value emits the
pending table prefix plus `rootno ++ value`, with a decimal point inserted
after the third character exactly when `rootno ++ value` is longer than
three characters; the table buffer is then reset and the root kept. -/
theorem c2_s_component (comps : List String) (t r v : String) :
    step765 ⟨comps, t, some r⟩ ⟨"s", some v⟩ =
      .ok ⟨comps ++ [t ++ (if (r ++ v).length > 3
              then (r ++ v).take 3 ++ "." ++ (r ++ v).drop 3
              else r ++ v)], "", some r⟩ := by
  unfold step765
  simp

/-! ## Claim C4 -/

/-- Claim C4 confirmed: the literal 153 scenario
`z=3B, a=81, c=89, y=1, a=02, z=3B, e=81, f=89` yields `table="3B"`,
`notation="3B--81-89:02"`, `parent_notation="3B--81-89"` and
`is_top_concept=False`. -/
theorem c4_literal_scenario :
    parse153 [⟨"z", some "3B"⟩, ⟨"a", some "81"⟩, ⟨"c", some "89"⟩, ⟨"y", some "1"⟩,
      ⟨"a", some "02"⟩, ⟨"z", some "3B"⟩, ⟨"e", some "81"⟩, ⟨"f", some "89"⟩] =
      .ok ⟨some "3B", some "3B--81-89:02", false, some "3B--81-89", none⟩ :=
  rfl

/-! ## Claim C10 -/

/-- Claim C10 confirmed: `parse_153` raises `TypeError` on some subfield
lists made only of allowed codes: a list beginning with `$c` concatenates
onto a still-`None` notation, and `$y` followed by `$a` appends the
add-table separator onto a still-`None` notation. -/
theorem c10_type_errors :
    parse153 [⟨"c", some "1"⟩] =
      .error (.typeError "unsupported operand type: NoneType and str") ∧
    parse153 [⟨"y", some "1"⟩, ⟨"a", some "2"⟩] =
      .error (.typeError "unsupported operand type: NoneType and str") :=
  ⟨rfl, rfl⟩

/-! ## Claim C3 -/

theorem step153_h_ok (st : State153) (sf : Subfield) (hc : sf.code = "h") :
    step153 st sf = .ok { st with isTop := false } := by
  unfold step153
  simp [hc]

/-- Claim C3 as frozen is false: an `$e` subfield that arrives after the
scan has fallen into `other` mode (here because a `$f` precedes any `$e`)
never reaches the `$e` branch, so parent_notation stays `None` although an
`$e` subfield existed. -/
theorem c3_counterexample :
    parse153 [⟨"f", some "1"⟩, ⟨"e", some "2"⟩] = .ok ⟨none, none, true, none, none⟩ ∧
    (⟨"e", some "2"⟩ : Subfield) ∈ [(⟨"f", some "1"⟩ : Subfield), ⟨"e", some "2"⟩] :=
  ⟨rfl, by decide⟩

/-- Claim C3 amended: when no `$e` subfield exists at all, `parse_153`
returns `parent_notation = None` (an `$e` can also leave it `None` when it
is only seen in `other` mode); and `is_top_concept` is `True` iff
`parent_notation` is `None` and no `$h` subfield was present. -/
theorem c3_parent_iff_top :
    (∀ (sfs : List Subfield) (r : Result153),
        (∀ sf ∈ sfs, sf.code ≠ "e") → parse153 sfs = .ok r → r.parent = none) ∧
    (∀ (sfs : List Subfield) (r : Result153), parse153 sfs = .ok r →
        (r.isTop = true ↔ (r.parent = none ∧ ∀ sf ∈ sfs, sf.code ≠ "h"))) := by
  constructor
  · intro sfs r hnoe h
    unfold parse153 at h
    cases hrun : run153 init153 sfs with
    | error e => rw [hrun] at h; cases h
    | ok st =>
      rw [hrun] at h
      injection h with h
      subst h
      exact run153_parent_none sfs init153 st hnoe rfl hrun
  · intro sfs r h
    unfold parse153 at h
    cases hrun : run153 init153 sfs with
    | error e => rw [hrun] at h; cases h
    | ok st =>
      rw [hrun] at h
      injection h with h
      subst h
      constructor
      · intro hTop
        have hTop' : (if st.parent ≠ none then false else st.isTop) = true := hTop
        have hpar : st.parent = none := by
          by_contra hne
          simp [hne] at hTop'
        have hisTop : st.isTop = true := by
          simpa [hpar] using hTop'
        refine ⟨hpar, ?_⟩
        intro sf hmem
        intro hcode
        obtain ⟨l1, l2, rfl⟩ := List.append_of_mem hmem
        rw [run153_append] at hrun
        cases h1 : run153 init153 l1 with
        | error e => rw [h1] at hrun; cases hrun
        | ok s1 =>
          rw [h1] at hrun
          unfold run153 at hrun
          rw [step153_h_ok s1 sf hcode] at hrun
          have hfalse : st.isTop = false :=
            run153_isTop_false l2 _ st rfl hrun
          rw [hfalse] at hisTop
          cases hisTop
      · rintro ⟨hpar, hnoh⟩
        have hpar' : st.parent = none := hpar
        have heq : st.isTop = init153.isTop := run153_isTop_eq sfs init153 st hnoh hrun
        show (if st.parent ≠ none then false else st.isTop) = true
        simp [hpar', heq, init153]

/-- Witness for C3's amended theorem on the concrete list `[j=x]`. -/
theorem c3_witness :
    parse153 [⟨"j", some "x"⟩] = .ok ⟨none, none, true, none, some "x"⟩ ∧
    Result153.parent ⟨none, none, true, none, some "x"⟩ = none ∧
    Result153.isTop ⟨none, none, true, none, some "x"⟩ = true :=
  ⟨rfl,
   c3_parent_iff_top.1 [⟨"j", some "x"⟩] ⟨none, none, true, none, some "x"⟩ (by decide) rfl,
   (c3_parent_iff_top.2 [⟨"j", some "x"⟩] ⟨none, none, true, none, some "x"⟩ rfl).mpr
     ⟨rfl, by decide⟩⟩

/-! ## Claim C5 -/

theorem go765_cons (st : State765) (sf : Subfield) (rest : List Subfield) :
    go765 st (sf :: rest) = match step765 st sf with
      | .ok st' => go765 st' rest
      | .error e => .error e := rfl

/-- Claim C5 as frozen is false in its "hence" part: when the last-occurring
765 field is `[s=123, b=999]`, the `$s` component `123` is emitted first, so
the `$b` base number `999` finds a non-empty list and is dropped; the head
of the components list is `123`, not the base number `999` of the
last-occurring field. -/
theorem c5_counterexample :
    parse765 [[⟨"b", some "306.6"⟩], [⟨"s", some "123"⟩, ⟨"b", some "999"⟩]] = .ok ["123"] ∧
    (["123"] : List String).head? ≠ some "999" :=
  ⟨rfl, by decide⟩

/-- Claim C5 amended: the 765 fields are processed in reverse occurrence
order; a `$b` subfield is a no-op whenever the components list is already
non-empty; and the head of the components list is the base number of the
last-occurring 765 field whenever that field starts with its `$b` subfield
(in general the head is simply the first component emitted by the reversed
scan). -/
theorem c5_reverse_scan :
    (∀ fields : List (List Subfield), parse765 fields = run765 [] fields.reverse) ∧
    (∀ (comps : List String) (t : String) (r v : Option String),
        comps ≠ [] → step765 ⟨comps, t, r⟩ ⟨"b", v⟩ = .ok ⟨comps, t, r⟩) ∧
    (∀ (fs : List (List Subfield)) (rest : List Subfield) (v : String) (cs : List String),
        parse765 (fs ++ [⟨"b", some v⟩ :: rest]) = .ok cs → cs.head? = some v) := by
  refine ⟨fun fields => rfl, ?_, ?_⟩
  · intro comps t r v h
    exact step765_b_noop ⟨comps, t, r⟩ v h
  · intro fs rest v cs h
    unfold parse765 at h
    rw [List.reverse_append, List.reverse_singleton, List.singleton_append] at h
    unfold run765 at h
    have hstep : step765 ⟨[], "", some ""⟩ ⟨"b", some v⟩ = .ok ⟨[v], "", some ""⟩ := rfl
    have hfield : run765Field [] (⟨"b", some v⟩ :: rest) =
        (match go765 ⟨[v], "", some ""⟩ rest with
         | .error e => .error e
         | .ok st => .ok st.components) := by
      unfold run765Field
      rw [go765_cons, hstep]
    rw [hfield] at h
    cases hgo : go765 ⟨[v], "", some ""⟩ rest with
    | error e => rw [hgo] at h; cases h
    | ok stF =>
      rw [hgo] at h
      obtain ⟨app1, h1⟩ := go765_components_extend rest _ stF hgo
      obtain ⟨app2, h2⟩ := run765_extend fs.reverse stF.components cs h
      rw [h2, h1]
      simp

/-- Witness for C5's amended theorem on literal scenario 4: a single 765
field `[b=306.6, a=306.63, c=306.69, r=2, s=804]` resolves to
`["306.6", "280.4"]` and its head is the base number. -/
theorem c5_witness :
    parse765 [[⟨"b", some "306.6"⟩, ⟨"a", some "306.63"⟩, ⟨"c", some "306.69"⟩,
      ⟨"r", some "2"⟩, ⟨"s", some "804"⟩]] = .ok ["306.6", "280.4"] ∧
    (["306.6", "280.4"] : List String).head? = some "306.6" :=
  ⟨rfl,
   c5_reverse_scan.2.2 []
     [⟨"a", some "306.63"⟩, ⟨"c", some "306.69"⟩, ⟨"r", some "2"⟩, ⟨"s", some "804"⟩]
     "306.6" ["306.6", "280.4"] rfl⟩

/-! ## Claim C6 -/

theorem pyIndex_ok (s : String) (i : Nat) (h : i < s.data.length) :
    ∃ c, pyIndex s i = .ok c := by
  unfold pyIndex
  cases hg : s.data.get? i with
  | some c => exact ⟨c, rfl⟩
  | none =>
    rw [List.get?_eq_none] at hg
    omega

/-- Claim C6 as frozen is false: `parse_008` is not total over arbitrary
string values; the empty string makes `datetime.strptime` raise a
`ValueError` before any flag decoding happens (short strings likewise die
with an `IndexError` at `value[6]`). -/
theorem c6_counterexample :
    parse008 (some "") = .error (.valueError "time data does not match format") := rfl

/-- Claim C6 amended: `parse_008` never raises when the 008 field is absent
(returning the defaults), and never raises on any value of length at least
14 whose first six characters parse as a `%y%m%d` date; unknown flag codes
then degrade to `unknown`/defaults rather than raising. -/
theorem c6_no_raise :
    (parse008 none = .ok ⟨none, none, none, true, false, false⟩) ∧
    (∀ v : String, 14 ≤ v.data.length → pyOk (strptimeYYMMDD (v.take 6)) = true →
        pyOk (parse008 (some v)) = true) := by
  refine ⟨rfl, ?_⟩
  intro v hlen hok
  cases hd : strptimeYYMMDD (v.take 6) with
  | error e => rw [hd] at hok; exact absurd hok (by simp [pyOk])
  | ok d =>
    obtain ⟨c6, h6⟩ := pyIndex_ok v 6 (by omega)
    obtain ⟨c7, h7⟩ := pyIndex_ok v 7 (by omega)
    obtain ⟨c8, h8⟩ := pyIndex_ok v 8 (by omega)
    obtain ⟨c12, h12⟩ := pyIndex_ok v 12 (by omega)
    obtain ⟨c13, h13⟩ := pyIndex_ok v 13 (by omega)
    show pyOk (parse008Str v) = true
    unfold parse008Str
    rw [hd, h6, h7, h8, h12, h13]
    rfl

/-- Witness for C6's amended theorem on a concrete 14-character value with
unknown flag codes. -/
theorem c6_witness :
    (14 ≤ ("910101aaaaaaaa" : String).data.length) ∧
    pyOk (parse008 (some "910101aaaaaaaa")) = true :=
  ⟨by decide, c6_no_raise.2 "910101aaaaaaaa" (by decide) (by decide)⟩

/-! ## Claim C7 -/

theorem replaceSpaceAux_no_space (sub : List Char) (hsub : ' ' ∉ sub) :
    ∀ l : List Char, ' ' ∉ replaceSpaceAux sub l := by
  intro l
  induction l with
  | nil => simp [replaceSpaceAux]
  | cons c rest ih =>
    unfold replaceSpaceAux
    by_cases hc : c = ' '
    · simp only [hc, if_pos rfl, List.mem_append]
      rintro (h1 | h2)
      · exact hsub h1
      · exact ih h2
    · simp only [if_neg hc, List.mem_append]
      rintro (h1 | h2)
      · simp at h1; exact hc h1.symm
      · exact ih h2

/-- Claim C7 as frozen is false: `uri.replace(' ', self.whitespace)` only
replaces the space character U+0020, not every whitespace character; a tab
inside the resolved URI survives untouched even though the substitute
defaults to `-`. -/
theorem c7_counterexample :
    (mkConceptScheme none none ⟨none, some "http://x/{object}", none, none⟩).uri
        "concept" [("object", some "a\tb")] = .ok "http://x/a\tb" ∧
    '\t' ∈ ("http://x/a\tb" : String).data ∧
    ('\t').isWhitespace = true ∧
    (mkConceptScheme none none ⟨none, some "http://x/{object}", none, none⟩).whitespace = "-" :=
  ⟨rfl, by decide, by decide, rfl⟩

/-- Claim C7 amended: after substitution every remaining space character
(U+0020, not all whitespace) is replaced by the scheme's whitespace
substitute, which defaults to `-` when the configuration does not specify
one: a successful URI contains no space whenever the substitute itself
contains none. -/
theorem c7_space_replacement (options : SchemeOptions) (code ed : Option String)
    (uriType : String) (kwargs : Kwargs) (u : String)
    (hws : ' ' ∉ (mkConceptScheme code ed options).whitespace.data)
    (h : (mkConceptScheme code ed options).uri uriType kwargs = .ok u) :
    (options.whitespace = none → (mkConceptScheme code ed options).whitespace = "-") ∧
    ' ' ∉ u.data := by
  constructor
  · intro hwn
    show pyOrDefault options.whitespace "-" = "-"
    rw [hwn]
    rfl
  · unfold ConceptScheme.uri at h
    repeat' split at h
    all_goals try exact Except.noConfusion h
    all_goals dsimp only at h
    all_goals repeat' split at h
    all_goals try exact Except.noConfusion h
    all_goals injection h with h
    all_goals subst h
    all_goals exact replaceSpaceAux_no_space _ hws _

/-- Witness for C7's amended theorem: resolving `http://x/{object}` with
`object = "a b"` under the default substitute yields `http://x/a-b`. -/
theorem c7_witness :
    ((mkConceptScheme none none ⟨none, some "http://x/{object}", none, none⟩).uri
        "concept" [("object", some "a b")] = .ok "http://x/a-b") ∧
    (((⟨none, some "http://x/{object}", none, none⟩ : SchemeOptions).whitespace = none →
        (mkConceptScheme none none ⟨none, some "http://x/{object}", none, none⟩).whitespace = "-") ∧
      ' ' ∉ ("http://x/a-b" : String).data) :=
  ⟨rfl,
   c7_space_replacement ⟨none, some "http://x/{object}", none, none⟩ none none
     "concept" [("object", some "a b")] "http://x/a-b" (by decide) rfl⟩

/-! ## Claim C8 -/

/-- Claim C8 confirmed: with the Dewey template
`http://dewey.info/{collection}/{object}/e{edition}/`, `collection=class`,
`object=152` and raw edition `23no`, the edition placeholder receives only
the digits `23` and the URI resolves to `http://dewey.info/class/152/e23/`. -/
theorem c8_dewey_edition :
    (mkRecordScheme (some "ddc") (some "23no")
        [("concept", "http://dewey.info/{collection}/{object}/e{edition}/")]).getUri
      "concept" [("collection", some "class"), ("object", some "152")] =
      .ok "http://dewey.info/class/152/e23/" ∧
    digitsOnly "23no" = "23" :=
  ⟨rfl, rfl⟩

/-! ## Claim C9 -/

/-- Claim C9 as frozen is false: on a record whose 008 value is malformed
(here the empty string) and whose 153 field is also absent,
`ClassificationRecord.parse` raises the strptime `ValueError` before ever
reaching the 153 check, so the failure is not an `InvalidRecordError`
carrying the control number. -/
theorem c9_counterexample :
    classificationParse ⟨some "cn1", none, none, some "", none, []⟩ =
      .error (.valueError "time data does not match format") ∧
    (PyExc.valueError "time data does not match format" ≠
      PyExc.invalidRecord "153 field is missing" (some "cn1")) :=
  ⟨rfl, by decide⟩

/-- Claim C9 amended: when the 153 field is absent and the 008 decode does
not itself raise, parsing fails with
`InvalidRecordError('153 field is missing')` carrying the record's control
number (016 `$a` over 010 `$a` over 001) when one is available. -/
theorem c9_missing153 (r : MarcClassRecord) (h153 : r.f153 = none)
    (h008 : pyOk (parse008 r.f008) = true) :
    classificationParse r =
      .error (.invalidRecord "153 field is missing" (controlNumberOf r)) := by
  unfold classificationParse
  cases h8 : parse008 r.f008 with
  | error e => rw [h8] at h008; exact absurd h008 (by simp [pyOk])
  | ok r8 =>
    rw [h153]

/-- Witness for C9's amended theorem: a record with 001, 010 and 016
control numbers and no 008 nor 153 field fails with the 016 value
attached. -/
theorem c9_witness :
    classificationParse ⟨some "c1", some "c10", some "c16", none, none, []⟩ =
      .error (.invalidRecord "153 field is missing" (some "c16")) :=
  c9_missing153 ⟨some "c1", some "c10", some "c16", none, none, []⟩ rfl rfl

end Mc2skos
